import Mathlib

/-!
Shallow embedding of the document/view core of the tiled map editor:
the creation-tool state machine (createobjecttool.cpp) and the document
manager (documentmanager.cpp), together with proofs about the claims of
the natural-language specification.

Conventions of the embedding:
* Qt `qreal` coordinates are modelled as rationals.
* Pointers are modelled by value records carrying a numeric `id` field
  that plays the role of the pointer identity.
* Signal emissions that only notify collaborators (documentAboutToClose,
  currentDocumentChanged, ...) carry no state and are not modelled;
  the `reloadError` signal is modelled as an appended message, since the
  spec constrains its content.
-/

namespace Tiled

/-! ## Coordinates and rounding

`qRound` in Qt is `d >= 0.0 ? int(d + 0.5) : int(d - 0.5)`, where the
`int` cast truncates toward zero; on a nonnegative argument that is a
floor, on a negative argument a ceiling.  `QPointF::toPoint()` applies
`qRound` to both coordinates. -/

def qRound (x : Rat) : Int :=
  if 0 ≤ x then ⌊x + 1/2⌋ else ⌈x - 1/2⌉


/-- A `QPointF`: a pair of rational coordinates. -/
structure PointF where
  x : Rat
  y : Rat
  deriving DecidableEq, Repr

/-- The effect of `QPointF::toPoint()` read back into a `QPointF`
(as in `tileCoords = (tileCoords * gridFine).toPoint()`). -/
def PointF.toPoint (p : PointF) : PointF :=
  ⟨(qRound p.x : Int), (qRound p.y : Int)⟩

def PointF.scale (p : PointF) (k : Int) : PointF :=
  ⟨p.x * k, p.y * k⟩

def PointF.divide (p : PointF) (k : Int) : PointF :=
  ⟨p.x / k, p.y / k⟩

def PointF.add (p q : PointF) : PointF :=
  ⟨p.x + q.x, p.y + q.y⟩

/-- Fine-grid snap, from `CreateObjectTool::mousePressed`:
`tileCoords = (tileCoords * gridFine).toPoint(); tileCoords /= gridFine;`. -/
def snapFineGrid (gridFine : Int) (p : PointF) : PointF :=
  ((p.scale gridFine).toPoint).divide gridFine

/-- Coarse whole-tile snap, from `CreateObjectTool::mousePressed`:
`tileCoords = tileCoords.toPoint();`. -/
def snapWholeTile (p : PointF) : PointF :=
  p.toPoint

/-! ## The creation tool (createobjecttool.cpp)

The tool state holds the fields of `CreateObjectTool` that the embedded
excerpt reads or writes, the current object group (the result of
`currentObjectGroup()`, which the session object also belongs to while a
session is active), the presentation items of the scene, and the undo
stack of the document the tool operates on (`mapDocument()`, the active
document). -/

inductive CreationMode
  | CreateGeometry
  | CreateTile
  deriving DecidableEq, Repr

structure Tile where
  width : Int
  height : Int
  deriving DecidableEq, Repr

structure MapObject where
  id : Nat
  pos : PointF
  deriving DecidableEq, Repr

/-- An object group.  `visible` is read by `mousePressed`; the
`editable` flag is Modelled from the spec: the Map Model interface of
the spec exposes a query of layer editability (section 6), which the
excerpted code never consults. -/
structure ObjectGroup where
  visible : Bool
  editable : Bool
  objects : List MapObject
  deriving DecidableEq, Repr, Inhabited

inductive UndoCommand
  | addMapObject (obj : MapObject)
  deriving DecidableEq, Repr

structure Preferences where
  snapToGrid : Bool
  snapToFineGrid : Bool
  gridFine : Int
  deriving DecidableEq, Repr

structure ToolState where
  mode : CreationMode
  tile : Option Tile
  group : Option ObjectGroup
  newMapObjectItem : Option MapObject
  overlayPolygonItem : Option Nat
  sceneItems : List Nat
  undoStack : List UndoCommand
  deriving DecidableEq, Repr

/-- Environment of the tool: preferences, the renderer conversions
(external Coordinate Transform Provider) and the pluggable factory
`createNewMapObject()` (pure virtual, supplied by the subclass; `none`
models the factory declining). -/
structure ToolEnv where
  prefs : Preferences
  screenToTile : PointF → PointF
  tileToPixel : PointF → PointF
  factory : Option MapObject

structure MouseEvent where
  leftButton : Bool
  ctrl : Bool
  scenePos : PointF

/-- Snap-flag computation shared by mousePressed, mouseMoved and
mouseReleased: the Control modifier inverts snapToGrid and forces
snapToFineGrid off. -/
def effectiveSnap (prefs : Preferences) (ctrl : Bool) : Bool × Bool :=
  if ctrl then (!prefs.snapToGrid, false)
  else (prefs.snapToGrid, prefs.snapToFineGrid)

/-- CreateObjectTool::startNewMapObject.  The factory may decline
(return null), in which case nothing happens; otherwise the object is
positioned, added to the object group, and a presentation item for it is
added to the scene.  No undo command is involved. -/
def startNewMapObject (env : ToolEnv) (s : ToolState) (pos : PointF) : ToolState :=
  match env.factory with
  | none => s
  | some o =>
    let obj := { o with pos := pos }
    { s with
      group := s.group.map fun g => { g with objects := g.objects ++ [obj] }
      newMapObjectItem := some obj
      sceneItems := s.sceneItems ++ [obj.id] }

/-- CreateObjectTool::clearNewMapObjectItem.  Removes the session object
from its object group, deletes the presentation item and the overlay
item, and hands the object back to the caller. -/
def clearNewMapObjectItem (s : ToolState) : ToolState × Option MapObject :=
  match s.newMapObjectItem with
  | none => (s, none)
  | some obj =>
    ({ s with
        group := s.group.map fun g => { g with objects := g.objects.erase obj }
        sceneItems := s.sceneItems.erase obj.id
        newMapObjectItem := none
        overlayPolygonItem := none }, some obj)

/-- CreateObjectTool::cancelNewMapObject: clear the item and destroy the
object. -/
def cancelNewMapObject (s : ToolState) : ToolState :=
  (clearNewMapObjectItem s).1

/-- CreateObjectTool::finishNewMapObject: clear the item, then push an
AddMapObject command for the object onto the undo stack of the active
document.  Modelled from the spec: the AddMapObject command itself
(addremovemapobject.cpp, not part of the excerpt) is an atomic add
command whose execution on push re-adds the object to its object group,
so the committed object stays present in the model. -/
def finishNewMapObject (s : ToolState) : ToolState :=
  match s.newMapObjectItem with
  | none => s
  | some obj =>
    let s1 := (clearNewMapObjectItem s).1
    { s1 with
        group := s1.group.map fun g => { g with objects := g.objects ++ [obj] }
        undoStack := s1.undoStack ++ [UndoCommand.addMapObject obj] }

/-- CreateObjectTool::deactivate: an active session is cancelled before
the base-class deactivation (which touches no modelled state). -/
def deactivate (s : ToolState) : ToolState :=
  if s.newMapObjectItem.isSome then cancelNewMapObject s else s

inductive Key
  | enterKey
  | returnKey
  | escapeKey
  | otherKey
  deriving DecidableEq, Repr

/-- CreateObjectTool::keyPressed: Enter and Return finish an active
session, Escape cancels it; anything else falls through to the base
class, which does not touch the modelled state. -/
def keyPressed (s : ToolState) (k : Key) : ToolState :=
  match k with
  | Key.enterKey => if s.newMapObjectItem.isSome then finishNewMapObject s else s
  | Key.returnKey => if s.newMapObjectItem.isSome then finishNewMapObject s else s
  | Key.escapeKey => if s.newMapObjectItem.isSome then cancelNewMapObject s else s
  | Key.otherKey => s

/-- CreateObjectTool::mousePressed.  While a session is active the press
is forwarded to `mousePressedWhileCreatingObject`, a no-op in the base
class; a non-left press goes to the base class (context menu, no model
change); otherwise the current object group is fetched and checked for
presence and visibility only, tile mode additionally requires a current
tile, the press position is converted to tile coordinates (with the
half-tile offset in tile mode, computed with C++ integer division),
snapped, converted to pixel coordinates and used to start the session. -/
def mousePressed (env : ToolEnv) (s : ToolState) (e : MouseEvent) : ToolState :=
  if s.newMapObjectItem.isSome then s
  else if !e.leftButton then s
  else
    match s.group with
    | none => s
    | some g =>
      if !g.visible then s
      else
        let tileCoords? : Option PointF :=
          match s.mode, s.tile with
          | CreationMode.CreateTile, none => none
          | CreationMode.CreateTile, some t =>
            some (env.screenToTile
              (e.scenePos.add ⟨(Int.tdiv (-t.width) 2 : Int), (Int.tdiv t.height 2 : Int)⟩))
          | CreationMode.CreateGeometry, _ =>
            some (env.screenToTile e.scenePos)
        match tileCoords? with
        | none => s
        | some tc =>
          let snap := effectiveSnap env.prefs e.ctrl
          let tc2 :=
            if snap.2 then snapFineGrid env.prefs.gridFine tc
            else if snap.1 then snapWholeTile tc
            else tc
          startNewMapObject env s (env.tileToPixel tc2)

/-! ## The document manager (documentmanager.cpp)

A document is modelled by the attributes of MapDocument that the
excerpt reads or writes; the `id` field stands for the pointer identity
of the C++ object.  A view binding (MapViewContainer with its MapView)
holds the transient view state and the file-changed warning widget. -/

structure MapDocument where
  id : Nat
  fileName : String
  modified : Bool
  lastSaved : Int
  currentLayerIndex : Int
  layerCount : Nat
  readerPluginFileName : String
  deriving DecidableEq, Repr, Inhabited

structure MapViewState where
  scale : Rat
  hScroll : Int
  vScroll : Int
  deriving DecidableEq, Repr, Inhabited

structure MapViewContainer where
  view : MapViewState
  warningVisible : Bool
  deriving DecidableEq, Repr, Inhabited

/-- A fresh MapView: default zoom 1, scrollbars at 0, no warning. -/
def initContainer : MapViewContainer :=
  { view := { scale := 1, hScroll := 0, vScroll := 0 }, warningVisible := false }

/-- Modelled from the spec: the FileSystemWatcher
(filesystemwatcher.cpp, not part of the excerpt) supports watching the
same path several times; the spec requires one live subscription per
unique non-empty open file path, and the reload path in
documentmanager.cpp adds the new document before removing the old one
with the same path, so the subscription store must count repeated adds.
It is modelled as an association list from path to add count. -/
def watchAdd : List (String × Nat) → String → List (String × Nat)
  | [], p => [(p, 1)]
  | (q, n) :: rest, p =>
    if q = p then (q, n + 1) :: rest else (q, n) :: watchAdd rest p

def watchRemove : List (String × Nat) → String → List (String × Nat)
  | [], _ => []
  | (q, n) :: rest, p =>
    if q = p then (if n ≤ 1 then rest else (q, n - 1) :: rest)
    else (q, n) :: watchRemove rest p

def watchCount : List (String × Nat) → String → Nat
  | [], _ => 0
  | (q, n) :: rest, p => if q = p then n else watchCount rest p

def modifyIdx {α : Type} : List α → Nat → (α → α) → List α
  | [], _, _ => []
  | a :: l, 0, f => f a :: l
  | a :: l, i + 1, f => a :: modifyIdx l i f

/-- QList::move / moving a tab: take the element at `src` out and
insert it again at `dst`. -/
def listMove {α : Type} (l : List α) (src dst : Nat) : List α :=
  match l[src]? with
  | none => l
  | some a => (l.eraseIdx src).insertIdx dst a

/-- The state of the DocumentManager: the ordered open documents, the
parallel ordered view containers of the tab widget, the current tab
index (−1 when no tab), the watch subscriptions and the emitted
reloadError messages. -/
structure DocManager where
  documents : List MapDocument
  containers : List MapViewContainer
  currentIndex : Int
  watch : List (String × Nat)
  messages : List String
  deriving DecidableEq, Repr

/-- Environment of the manager: the filesystem (canonical path
resolution, empty string when the file does not exist, and modification
times), the map reader (`MapDocument::load`, external to the excerpt:
`none` is a failed read), its error text, and the scrollbar positions
produced by centering the view on the origin. -/
structure DmEnv where
  canonical : String → String
  lastModified : String → Int
  load : String → String → Option MapDocument
  loadError : String → String
  centerScroll : Int × Int

/-- DocumentManager::findDocument: resolve to the canonical path;
a path that does not exist on disk is never matched; otherwise the
first open document whose file name resolves to the same canonical
path is returned. -/
def findDocument (env : DmEnv) (dm : DocManager) (fileName : String) : Option Nat :=
  let canonicalFilePath := env.canonical fileName
  if canonicalFilePath = "" then none
  else dm.documents.findIdx? fun d => env.canonical d.fileName = canonicalFilePath

/-- DocumentManager::currentDocument. -/
def currentDocument (dm : DocManager) : Option MapDocument :=
  if dm.currentIndex = -1 then none
  else some (dm.documents.getD dm.currentIndex.toNat default)

/-- DocumentManager::switchToDocument(int): set the current tab. -/
def switchToDocument (dm : DocManager) (index : Nat) : DocManager :=
  { dm with currentIndex := (index : Int) }

/-- DocumentManager::centerViewOn: center the current view on the
origin (the concrete scrollbar effect of QGraphicsView::centerOn is
abstracted into the environment); no-op without a current view. -/
def centerViewOn (env : DmEnv) (dm : DocManager) : DocManager :=
  if dm.currentIndex = -1 then dm
  else
    { dm with
        containers := modifyIdx dm.containers dm.currentIndex.toNat fun c =>
          { c with view :=
              { c.view with
                  hScroll := env.centerScroll.1
                  vScroll := env.centerScroll.2 } } }

/-- DocumentManager::addDocument: append the document and a fresh
view container, subscribe its non-empty file name to the watcher,
switch to the new tab and center its view on the origin.  The code
asserts that the document object is not already registered; the
assertion condition is available to theorems as a hypothesis. -/
def addDocument (env : DmEnv) (dm : DocManager) (doc : MapDocument) : DocManager :=
  let documents := dm.documents ++ [doc]
  let watch := if doc.fileName ≠ "" then watchAdd dm.watch doc.fileName else dm.watch
  let containers := dm.containers ++ [initContainer]
  let documentIndex := documents.length - 1
  let dm1 : DocManager :=
    { documents, containers, watch
      currentIndex := dm.currentIndex, messages := dm.messages }
  centerViewOn env (switchToDocument dm1 documentIndex)

/-- Current-index adjustment of QTabWidget::removeTab: an index below
the current one shifts the current tab down; removing the current tab
selects the nearest remaining one; the last tab leaves −1.  Only the
cases with `removed ≠ current` are exercised by the excerpt. -/
def removeTabCurrent (current : Int) (removed : Nat) (newCount : Nat) : Int :=
  if newCount = 0 then -1
  else if current = (removed : Int) then min (removed : Int) ((newCount : Int) - 1)
  else if (removed : Int) < current then current - 1
  else current

/-- DocumentManager::closeDocumentAt: emit documentAboutToClose (no
modelled state), drop the document and its tab/view container, remove
its non-empty file name from the watcher, destroy the document. -/
def closeDocumentAt (dm : DocManager) (index : Nat) : DocManager :=
  let mapDocument := dm.documents.getD index default
  let documents := dm.documents.eraseIdx index
  let containers := dm.containers.eraseIdx index
  let watch :=
    if mapDocument.fileName ≠ "" then watchRemove dm.watch mapDocument.fileName
    else dm.watch
  { documents, containers, watch
    currentIndex := removeTabCurrent dm.currentIndex index documents.length
    messages := dm.messages }

/-- Current-index adjustment of QTabBar::moveTab: the current tab
follows the moved widget. -/
def moveTabCurrent (current : Int) (src dst : Nat) : Int :=
  if current = (src : Int) then (dst : Int)
  else if (src : Int) < current ∧ current ≤ (dst : Int) then current - 1
  else if (dst : Int) ≤ current ∧ current < (src : Int) then current + 1
  else current

/-- MovableTabWidget::moveTab, whose tabMoved signal is wired to
DocumentManager::documentTabMoved, which applies the same move to the
document list, keeping both orders in step. -/
def moveTab (dm : DocManager) (src dst : Nat) : DocManager :=
  { dm with
      documents := listMove dm.documents src dst
      containers := listMove dm.containers src dst
      currentIndex := moveTabCurrent dm.currentIndex src dst }

/-- DocumentManager::reloadDocumentAt.  A failed read emits a
reloadError message naming the file and the cause and changes nothing
else; on success the new document is added (at the end, becoming
current), the old one is closed, the new tab is moved back to the old
position, the remembered zoom and scroll state of the old view is
restored on the current view, and the old current layer index is
restored on the new document when it is positive and below the new
layer count.  The reader plugin resolution of the excerpt is folded
into the environment `load` function, which receives the recorded
reader plugin file name. -/
def reloadDocumentAt (env : DmEnv) (dm : DocManager) (index : Nat) :
    DocManager × Bool :=
  let oldDocument := dm.documents.getD index default
  match env.load oldDocument.fileName oldDocument.readerPluginFileName with
  | none =>
    ({ dm with
        messages :=
          dm.messages ++ [oldDocument.fileName ++ ":\n\n" ++ env.loadError oldDocument.fileName] },
      false)
  | some newDocument =>
    -- Remember current view state
    let mapView := (dm.containers.getD index default).view
    let layerIndex := oldDocument.currentLayerIndex
    let scale := mapView.scale
    let horizontalPosition := mapView.hScroll
    let verticalPosition := mapView.vScroll
    -- Replace old tab
    let dm1 := addDocument env dm newDocument
    let dm2 := closeDocumentAt dm1 index
    let dm3 := moveTab dm2 (dm2.documents.length - 1) index
    -- Restore previous view state
    let dm4 :=
      if dm3.currentIndex = -1 then dm3
      else
        { dm3 with
            containers := modifyIdx dm3.containers dm3.currentIndex.toNat fun c =>
              { c with view :=
                  { scale, hScroll := horizontalPosition, vScroll := verticalPosition } } }
    let dm5 :=
      if 0 < layerIndex ∧ layerIndex < (newDocument.layerCount : Int) then
        { dm4 with
            documents := dm4.documents.map fun d =>
              if d.id = newDocument.id then { d with currentLayerIndex := layerIndex } else d }
      else dm4
    (dm5, true)

/-- DocumentManager::fileChanged: resolve the path to an open document
(unmatched paths are ignored), ignore a notification whose timestamp
equals the last save, reload automatically when the document has no
unsaved changes, and otherwise show the file-changed warning on the
view of that document. -/
def fileChanged (env : DmEnv) (dm : DocManager) (fileName : String) : DocManager :=
  match findDocument env dm fileName with
  | none => dm
  | some index =>
    let document := dm.documents.getD index default
    if env.lastModified fileName = document.lastSaved then dm
    else if !document.modified then (reloadDocumentAt env dm index).1
    else
      { dm with
          containers := modifyIdx dm.containers index fun c =>
            { c with warningVisible := true } }



def c6PressEnv : ToolEnv :=
  { prefs := { snapToGrid := false, snapToFineGrid := false, gridFine := 4 }
    screenToTile := fun p => p
    tileToPixel := fun p => p
    factory := some { id := 0, pos := ⟨0, 0⟩ } }

def c6PressState : ToolState :=
  { mode := CreationMode.CreateGeometry, tile := none
    group := some { visible := true, editable := false, objects := [] }
    newMapObjectItem := none, overlayPolygonItem := none
    sceneItems := [], undoStack := [] }

def c6PressEvent : MouseEvent :=
  { leftButton := true, ctrl := false, scenePos := ⟨0, 0⟩ }

def c2Env : DmEnv :=
  { canonical := fun s => s
    lastModified := fun _ => 3
    load := fun _ _ => none
    loadError := fun _ => "could not open file"
    centerScroll := (0, 0) }

def c2Dm : DocManager :=
  { documents := [{ id := 0, fileName := "a.tmx", modified := false, lastSaved := 1,
                    currentLayerIndex := 0, layerCount := 1, readerPluginFileName := "" }]
    containers := [{ view := { scale := 1, hScroll := 0, vScroll := 0 },
                     warningVisible := false }]
    currentIndex := 0
    watch := [("a.tmx", 1)]
    messages := [] }

def c3NewDoc : MapDocument :=
  { id := 7, fileName := "a.tmx", modified := false, lastSaved := 2,
    currentLayerIndex := 0, layerCount := 3, readerPluginFileName := "" }

def c3Env : DmEnv :=
  { canonical := fun s => s
    lastModified := fun _ => 9
    load := fun f _ => if f = "a.tmx" then some c3NewDoc else none
    loadError := fun _ => "err"
    centerScroll := (5, 6) }

def c3Dm : DocManager :=
  { documents := [{ id := 0, fileName := "a.tmx", modified := false, lastSaved := 1,
                    currentLayerIndex := 2, layerCount := 4, readerPluginFileName := "" }]
    containers := [{ view := { scale := 2, hScroll := 10, vScroll := 20 },
                     warningVisible := false }]
    currentIndex := 0
    watch := [("a.tmx", 1)]
    messages := [] }

def c3xNewDoc : MapDocument :=
  { id := 7, fileName := "a.tmx", modified := false, lastSaved := 2,
    currentLayerIndex := 1, layerCount := 2, readerPluginFileName := "" }

def c3xEnv : DmEnv :=
  { canonical := fun s => s
    lastModified := fun _ => 9
    load := fun f _ => if f = "a.tmx" then some c3xNewDoc else none
    loadError := fun _ => "err"
    centerScroll := (5, 6) }

def c3xDm : DocManager :=
  { documents := [{ id := 0, fileName := "a.tmx", modified := false, lastSaved := 1,
                    currentLayerIndex := 0, layerCount := 2, readerPluginFileName := "" }]
    containers := [{ view := { scale := 1, hScroll := 0, vScroll := 0 },
                     warningVisible := false }]
    currentIndex := 0
    watch := [("a.tmx", 1)]
    messages := [] }

def warningCount (dm : DocManager) : Nat :=
  dm.containers.countP (fun c => c.warningVisible)

def c1Env : DmEnv :=
  { canonical := fun s => if s = "a.tmx" then s else ""
    lastModified := fun _ => 42
    load := fun _ _ => none
    loadError := fun _ => "unreadable"
    centerScroll := (0, 0) }

def c1Dm : DocManager :=
  { documents := [{ id := 0, fileName := "a.tmx", modified := true, lastSaved := 7,
                    currentLayerIndex := 1, layerCount := 2, readerPluginFileName := "" }]
    containers := [{ view := { scale := 1, hScroll := 0, vScroll := 0 },
                     warningVisible := false }]
    currentIndex := 0
    watch := [("a.tmx", 1)]
    messages := [] }


def c8Env : DmEnv :=
  { canonical := fun s => s
    lastModified := fun _ => 0
    load := fun _ _ => none
    loadError := fun _ => ""
    centerScroll := (0, 0) }

def c8Dm : DocManager :=
  { documents := [{ id := 0, fileName := "a.tmx", modified := false, lastSaved := 0,
                    currentLayerIndex := 0, layerCount := 1, readerPluginFileName := "" },
                  { id := 1, fileName := "a.tmx", modified := false, lastSaved := 0,
                    currentLayerIndex := 0, layerCount := 1, readerPluginFileName := "" }]
    containers := [{ view := { scale := 1, hScroll := 0, vScroll := 0 },
                     warningVisible := false },
                   { view := { scale := 1, hScroll := 0, vScroll := 0 },
                     warningVisible := false }]
    currentIndex := 0
    watch := [("a.tmx", 2)]
    messages := [] }

def c9Env : DmEnv :=
  { canonical := fun s => if s = "" then "" else s
    lastModified := fun _ => 0
    load := fun _ _ => none
    loadError := fun _ => ""
    centerScroll := (0, 0) }

def c9DocA : MapDocument :=
  { id := 0, fileName := "a.tmx", modified := false, lastSaved := 0,
    currentLayerIndex := 0, layerCount := 1, readerPluginFileName := "" }

def c9DocB : MapDocument :=
  { id := 1, fileName := "a.tmx", modified := false, lastSaved := 0,
    currentLayerIndex := 0, layerCount := 1, readerPluginFileName := "" }

def c9Dm0 : DocManager :=
  { documents := [], containers := [], currentIndex := -1, watch := [], messages := [] }


def c7DocA : MapDocument :=
  { id := 0, fileName := "a.tmx", modified := false, lastSaved := 0,
    currentLayerIndex := 0, layerCount := 2, readerPluginFileName := "" }

def c7DocB : MapDocument :=
  { id := 1, fileName := "b.tmx", modified := false, lastSaved := 0,
    currentLayerIndex := 0, layerCount := 1, readerPluginFileName := "" }

def c7NewA : MapDocument :=
  { id := 2, fileName := "a.tmx", modified := false, lastSaved := 0,
    currentLayerIndex := 1, layerCount := 2, readerPluginFileName := "" }

def c7Env : DmEnv :=
  { canonical := fun s => if s = "a.tmx" || s = "b.tmx" then s else ""
    lastModified := fun _ => 5
    load := fun f _ => if f = "a.tmx" then some c7NewA else none
    loadError := fun _ => "boom"
    centerScroll := (7, 9) }

def c7Dm : DocManager :=
  { documents := [c7DocA, c7DocB]
    containers := [{ view := { scale := 2, hScroll := 30, vScroll := 40 },
                     warningVisible := false },
                   { view := { scale := 1, hScroll := 0, vScroll := 0 },
                     warningVisible := false }]
    currentIndex := 1
    watch := [("a.tmx", 1), ("b.tmx", 1)]
    messages := [] }

end Tiled

/-! ### Basic sanity checks of the tool embedding -/

example :
    Tiled.snapFineGrid 4 ⟨(7 : Rat)/8, 0⟩ = ⟨(1 : Rat), 0⟩ := by
  with_unfolding_all decide

example :
    Tiled.snapWholeTile ⟨(7 : Rat)/8, -(1 : Rat)/3⟩ = ⟨1, 0⟩ := by
  with_unfolding_all decide

namespace Tiled

/-! ## Helper lemmas on lists -/

theorem erase_concat_self {α : Type} [DecidableEq α] (l : List α) (a : α)
    (h : a ∉ l) : (l ++ [a]).erase a = l := by
  induction l with
  | nil => simp
  | cons b l ih =>
    have hba : b ≠ a := fun hba => h (hba ▸ List.mem_cons_self b l)
    have hmem : a ∉ l := fun hm => h (List.mem_cons_of_mem b hm)
    simp only [List.cons_append, List.erase_cons]
    rw [if_neg (by simpa using hba), ih hmem]

/-! ## C10: snap idempotence -/

theorem qRound_intCast (k : Int) : qRound (k : Rat) = k := by
  unfold qRound
  by_cases h : (0:Rat) ≤ (k : Rat)
  · rw [if_pos h, Int.floor_int_add]
    norm_num
  · rw [if_neg h, show ((k:Rat) - 1/2) = (-(1/2 : Rat)) + (k:Rat) by ring,
      Int.ceil_add_int]
    norm_num

theorem qRound_cast_div_mul (g : Int) (hg : (g : Rat) ≠ 0) (x : Rat) :
    qRound (((qRound x : Int) : Rat) / g * g) = qRound x := by
  rw [div_mul_cancel₀ _ hg, qRound_intCast]

/-- C10: the snap transform is idempotent: for every tile coordinate
pair and every fine-grid subdivision factor at least 1, re-applying the
fine-grid snap (multiply by the factor, round to nearest, divide back)
to an already fine-grid-snapped point returns it unchanged, and
re-applying the whole-tile snap (round both coordinates to nearest
integers) to an already whole-tile-snapped point returns it
unchanged. -/
theorem snap_idempotent (g : Int) (hg : 1 ≤ g) (p : PointF) :
    snapFineGrid g (snapFineGrid g p) = snapFineGrid g p ∧
    snapWholeTile (snapWholeTile p) = snapWholeTile p := by
  have hg0 : (g : Rat) ≠ 0 := by
    exact_mod_cast Int.cast_ne_zero.mpr (by omega)
  constructor
  · simp only [snapFineGrid, PointF.scale, PointF.toPoint, PointF.divide]
    simp only [PointF.mk.injEq]
    constructor
    · rw [qRound_cast_div_mul g hg0]
    · rw [qRound_cast_div_mul g hg0]
  · simp only [snapWholeTile, PointF.toPoint, PointF.mk.injEq]
    constructor
    · rw [qRound_intCast]
    · rw [qRound_intCast]

theorem snap_idempotent_witness :
    1 ≤ (4 : Int) ∧
    (snapFineGrid 4 (snapFineGrid 4 ⟨(7:Rat)/8, -(1:Rat)/3⟩) =
        snapFineGrid 4 ⟨(7:Rat)/8, -(1:Rat)/3⟩ ∧
      snapWholeTile (snapWholeTile ⟨(7:Rat)/8, -(1:Rat)/3⟩) =
        snapWholeTile ⟨(7:Rat)/8, -(1:Rat)/3⟩) :=
  ⟨by decide, snap_idempotent 4 (by decide) ⟨(7:Rat)/8, -(1:Rat)/3⟩⟩

end Tiled

namespace Tiled

/-! ## C4, C5, C6: the creation-tool state machine -/

/-- C4: for an active creation session (started from an idle state by a
press whose factory produced a fresh object), cancelling — directly, via
the Escape key, or implicitly through tool deactivation — removes the
speculative object from its object group, destroys the object and its
presentation item, and pushes nothing onto the undo stack: the resulting
state is the pre-session state (with the overlay item discarded), so the
object group contents and the undo stack are exactly as before the
session started. -/
theorem cancel_restores_state (env : ToolEnv) (s : ToolState) (pos : PointF)
    (o : MapObject)
    (hidle : s.newMapObjectItem = none)
    (hfac : env.factory = some o)
    (hobj : { o with pos := pos } ∉ (s.group.getD default).objects)
    (hitem : o.id ∉ s.sceneItems) :
    (startNewMapObject env s pos).newMapObjectItem = some { o with pos := pos } ∧
    cancelNewMapObject (startNewMapObject env s pos) =
      { s with overlayPolygonItem := none } ∧
    deactivate (startNewMapObject env s pos) =
      cancelNewMapObject (startNewMapObject env s pos) ∧
    keyPressed (startNewMapObject env s pos) Key.escapeKey =
      cancelNewMapObject (startNewMapObject env s pos) := by
  obtain ⟨mode, tile, group, ni, ov, sc, us⟩ := s
  obtain rfl : ni = none := hidle
  have hscene : (sc ++ [o.id]).erase o.id = sc := erase_concat_self _ _ hitem
  refine ⟨by simp [startNewMapObject, hfac], ?_,
    by simp [startNewMapObject, hfac, deactivate],
    by simp [startNewMapObject, hfac, keyPressed]⟩
  cases group with
  | none =>
    simp [startNewMapObject, hfac, cancelNewMapObject, clearNewMapObjectItem,
      hscene]
  | some g =>
    have hgrp : (g.objects ++ [{ o with pos := pos }]).erase { o with pos := pos } =
        g.objects :=
      erase_concat_self _ _ (by simpa using hobj)
    simp [startNewMapObject, hfac, cancelNewMapObject, clearNewMapObjectItem,
      hscene, hgrp]

def c4Env : ToolEnv :=
  { prefs := { snapToGrid := false, snapToFineGrid := false, gridFine := 4 }
    screenToTile := fun p => p
    tileToPixel := fun p => p
    factory := some { id := 5, pos := ⟨0, 0⟩ } }

def c4State : ToolState :=
  { mode := CreationMode.CreateGeometry, tile := none
    group := some { visible := true, editable := true
                    objects := [{ id := 1, pos := ⟨3, 4⟩ }] }
    newMapObjectItem := none, overlayPolygonItem := none
    sceneItems := [1], undoStack := [] }

theorem cancel_restores_state_witness :
    c4State.newMapObjectItem = none ∧
    c4Env.factory = some { id := 5, pos := ⟨0, 0⟩ } ∧
    ({ id := 5, pos := ⟨7, 7⟩ } : MapObject) ∉ (c4State.group.getD default).objects ∧
    (5 : Nat) ∉ c4State.sceneItems ∧
    ((startNewMapObject c4Env c4State ⟨7, 7⟩).newMapObjectItem =
        some { id := 5, pos := ⟨7, 7⟩ } ∧
      cancelNewMapObject (startNewMapObject c4Env c4State ⟨7, 7⟩) =
        { c4State with overlayPolygonItem := none } ∧
      deactivate (startNewMapObject c4Env c4State ⟨7, 7⟩) =
        cancelNewMapObject (startNewMapObject c4Env c4State ⟨7, 7⟩) ∧
      keyPressed (startNewMapObject c4Env c4State ⟨7, 7⟩) Key.escapeKey =
        cancelNewMapObject (startNewMapObject c4Env c4State ⟨7, 7⟩)) :=
  ⟨by decide, by decide, by decide, by decide,
    cancel_restores_state c4Env c4State ⟨7, 7⟩ { id := 5, pos := ⟨0, 0⟩ }
      (by decide) (by decide) (by decide) (by decide)⟩

/-- C5: starting a creation session inserts the object into its object
group immediately with the undo stack untouched; committing the session
pushes exactly one atomic add-object command onto the active undo
stack, with the object still present in its group afterwards; and
cancelling pushes nothing, so commit is the only path that records an
undo entry for the creation. -/
theorem commit_single_undo_entry (env : ToolEnv) (s : ToolState) (pos : PointF)
    (o : MapObject)
    (hidle : s.newMapObjectItem = none)
    (hfac : env.factory = some o)
    (hobj : { o with pos := pos } ∉ (s.group.getD default).objects) :
    (startNewMapObject env s pos).undoStack = s.undoStack ∧
    (startNewMapObject env s pos).group =
      s.group.map (fun g => { g with objects := g.objects ++ [{ o with pos := pos }] }) ∧
    (finishNewMapObject (startNewMapObject env s pos)).undoStack =
      s.undoStack ++ [UndoCommand.addMapObject { o with pos := pos }] ∧
    (finishNewMapObject (startNewMapObject env s pos)).group =
      s.group.map (fun g => { g with objects := g.objects ++ [{ o with pos := pos }] }) ∧
    (∀ g, (finishNewMapObject (startNewMapObject env s pos)).group = some g →
      { o with pos := pos } ∈ g.objects) ∧
    (cancelNewMapObject (startNewMapObject env s pos)).undoStack = s.undoStack := by
  obtain ⟨mode, tile, group, ni, ov, sc, us⟩ := s
  obtain rfl : ni = none := hidle
  cases group with
  | none =>
    simp [startNewMapObject, hfac, finishNewMapObject, clearNewMapObjectItem,
      cancelNewMapObject]
  | some g =>
    have hgrp : (g.objects ++ [{ o with pos := pos }]).erase { o with pos := pos } =
        g.objects :=
      erase_concat_self _ _ (by simpa using hobj)
    have hfin : (finishNewMapObject (startNewMapObject env
        ⟨mode, tile, some g, none, ov, sc, us⟩ pos)).group =
        some { g with objects := g.objects ++ [{ o with pos := pos }] } := by
      simp [startNewMapObject, hfac, finishNewMapObject, clearNewMapObjectItem,
        hgrp]
    refine ⟨by simp [startNewMapObject, hfac], by simp [startNewMapObject, hfac],
      by simp [startNewMapObject, hfac, finishNewMapObject, clearNewMapObjectItem],
      by simp [startNewMapObject, hfac, finishNewMapObject, clearNewMapObjectItem,
        hgrp],
      ?_,
      by simp [startNewMapObject, hfac, cancelNewMapObject, clearNewMapObjectItem]⟩
    intro g' hg'
    rw [hfin] at hg'
    injection hg' with h
    rw [← h]
    simp

def c5Env : ToolEnv :=
  { prefs := { snapToGrid := true, snapToFineGrid := false, gridFine := 4 }
    screenToTile := fun p => p
    tileToPixel := fun p => p
    factory := some { id := 5, pos := ⟨0, 0⟩ } }

def c5State : ToolState :=
  { mode := CreationMode.CreateGeometry, tile := none
    group := some { visible := true, editable := true, objects := [] }
    newMapObjectItem := none, overlayPolygonItem := none
    sceneItems := [], undoStack := [] }

theorem commit_single_undo_entry_witness :
    c5State.newMapObjectItem = none ∧
    c5Env.factory = some { id := 5, pos := ⟨0, 0⟩ } ∧
    ({ id := 5, pos := ⟨3, 3⟩ } : MapObject) ∉ (c5State.group.getD default).objects ∧
    ((startNewMapObject c5Env c5State ⟨3, 3⟩).undoStack = c5State.undoStack ∧
      (startNewMapObject c5Env c5State ⟨3, 3⟩).group =
        c5State.group.map (fun g =>
          { g with objects := g.objects ++ [{ id := 5, pos := ⟨3, 3⟩ }] }) ∧
      (finishNewMapObject (startNewMapObject c5Env c5State ⟨3, 3⟩)).undoStack =
        c5State.undoStack ++ [UndoCommand.addMapObject { id := 5, pos := ⟨3, 3⟩ }] ∧
      (finishNewMapObject (startNewMapObject c5Env c5State ⟨3, 3⟩)).group =
        c5State.group.map (fun g =>
          { g with objects := g.objects ++ [{ id := 5, pos := ⟨3, 3⟩ }] }) ∧
      (∀ g, (finishNewMapObject (startNewMapObject c5Env c5State ⟨3, 3⟩)).group = some g →
        ({ id := 5, pos := ⟨3, 3⟩ } : MapObject) ∈ g.objects) ∧
      (cancelNewMapObject (startNewMapObject c5Env c5State ⟨3, 3⟩)).undoStack =
        c5State.undoStack) :=
  ⟨by decide, by decide, by decide,
    commit_single_undo_entry c5Env c5State ⟨3, 3⟩ { id := 5, pos := ⟨0, 0⟩ }
      (by decide) (by decide) (by decide)⟩

/-- C6 (amended): while no session is active, a primary press is
silently ignored when there is no current object group, or the group is
not visible, or tile-stamp mode has no current tile; the editability of
the target layer is not part of the check performed by the code. -/
theorem press_silently_ignored (env : ToolEnv) (s : ToolState) (e : MouseEvent)
    (hidle : s.newMapObjectItem = none)
    (hleft : e.leftButton = true) :
    (s.group = none → mousePressed env s e = s) ∧
    (∀ g, s.group = some g → g.visible = false → mousePressed env s e = s) ∧
    (s.mode = CreationMode.CreateTile → s.tile = none → mousePressed env s e = s) := by
  refine ⟨?_, ?_, ?_⟩
  · intro hg
    simp [mousePressed, hidle, hleft, hg]
  · intro g hg hvis
    simp [mousePressed, hidle, hleft, hg, hvis]
  · intro hmode htile
    cases hg : s.group with
    | none => simp [mousePressed, hidle, hleft, hg]
    | some g =>
      cases hvis : g.visible with
      | false => simp [mousePressed, hidle, hleft, hg, hvis]
      | true => simp [mousePressed, hidle, hleft, hg, hvis, hmode, htile]

def c6Env : ToolEnv :=
  { prefs := { snapToGrid := false, snapToFineGrid := false, gridFine := 4 }
    screenToTile := fun p => p
    tileToPixel := fun p => p
    factory := some { id := 0, pos := ⟨0, 0⟩ } }

def c6State : ToolState :=
  { mode := CreationMode.CreateTile, tile := none
    group := some { visible := true, editable := true, objects := [] }
    newMapObjectItem := none, overlayPolygonItem := none
    sceneItems := [], undoStack := [] }

def c6Event : MouseEvent :=
  { leftButton := true, ctrl := false, scenePos := ⟨0, 0⟩ }

theorem press_silently_ignored_witness :
    c6State.newMapObjectItem = none ∧ c6Event.leftButton = true ∧
    ((c6State.group = none → mousePressed c6Env c6State c6Event = c6State) ∧
      (∀ g, c6State.group = some g → g.visible = false →
        mousePressed c6Env c6State c6Event = c6State) ∧
      (c6State.mode = CreationMode.CreateTile → c6State.tile = none →
        mousePressed c6Env c6State c6Event = c6State)) :=
  ⟨by decide, by decide,
    press_silently_ignored c6Env c6State c6Event (by decide) (by decide)⟩

/-- C6 counterexample: a primary press over a visible but non-editable
object group is not ignored — the press starts a session and inserts an
object into the group, refuting the editability part of the claim. -/
theorem press_ignores_editability :
    (c6PressState.group.map ObjectGroup.editable = some false ∧
      c6PressState.group.map ObjectGroup.visible = some true ∧
      c6PressState.newMapObjectItem = none ∧ c6PressEvent.leftButton = true) ∧
    mousePressed c6PressEnv c6PressState c6PressEvent ≠ c6PressState ∧
    (mousePressed c6PressEnv c6PressState c6PressEvent).group.map
      (fun g => g.objects.length) = some 1 := by
  decide

end Tiled

namespace Tiled

/-! ## Helper lemmas for the document manager proofs -/

theorem getD_concat_length {α : Type} (l : List α) (a d : α) :
    (l ++ [a]).getD l.length d = a := by
  induction l with
  | nil => rfl
  | cons b l ih => simp [ih]

theorem getD_concat_of_lt {α : Type} (l : List α) (a d : α) (i : Nat)
    (h : i < l.length) : (l ++ [a]).getD i d = l.getD i d := by
  induction l generalizing i with
  | nil => simp at h
  | cons b l ih =>
    cases i with
    | zero => rfl
    | succ i => simpa using ih i (by simpa using h)

theorem eraseIdx_concat_of_lt {α : Type} (l : List α) (a : α) (i : Nat)
    (h : i < l.length) : (l ++ [a]).eraseIdx i = l.eraseIdx i ++ [a] := by
  induction l generalizing i with
  | nil => simp at h
  | cons b l ih =>
    cases i with
    | zero => simp
    | succ i =>
      simp only [List.cons_append, List.eraseIdx_cons_succ, List.cons.injEq,
        true_and]
      exact ih i (by simpa using h)

theorem eraseIdx_concat_length {α : Type} (l : List α) (a : α) :
    (l ++ [a]).eraseIdx l.length = l := by
  induction l with
  | nil => rfl
  | cons b l ih => simp [ih]

theorem length_eraseIdx_of_lt {α : Type} (l : List α) (i : Nat)
    (h : i < l.length) : (l.eraseIdx i).length = l.length - 1 := by
  induction l generalizing i with
  | nil => simp at h
  | cons b l ih =>
    cases i with
    | zero => simp
    | succ i =>
      have hi : i < l.length := by simpa using h
      have hl : 1 ≤ l.length := by omega
      simp [ih i hi]
      omega

theorem getElem?_concat_length {α : Type} (l : List α) (a : α) :
    (l ++ [a])[l.length]? = some a := by
  induction l with
  | nil => rfl
  | cons b l ih => simp [ih]

theorem getD_insertIdx_self {α : Type} (l : List α) (a d : α) (i : Nat)
    (h : i ≤ l.length) : (l.insertIdx i a).getD i d = a := by
  induction l generalizing i with
  | nil =>
    cases i with
    | zero => rfl
    | succ i => simp at h
  | cons b l ih =>
    cases i with
    | zero => rfl
    | succ i => simpa using ih i (by simpa using h)

theorem getD_modifyIdx_self {α : Type} (l : List α) (i : Nat) (f : α → α)
    (d d' : α) (h : i < l.length) :
    (modifyIdx l i f).getD i d = f (l.getD i d') := by
  induction l generalizing i with
  | nil => simp at h
  | cons b l ih =>
    cases i with
    | zero => rfl
    | succ i => simpa [modifyIdx] using ih i (by simpa using h)

theorem modifyIdx_concat_length {α : Type} (l : List α) (a : α) (f : α → α) :
    modifyIdx (l ++ [a]) l.length f = l ++ [f a] := by
  induction l with
  | nil => rfl
  | cons b l ih => simpa [modifyIdx] using ih

theorem getD_map_of_lt {α β : Type} (l : List α) (f : α → β) (i : Nat)
    (d : β) (d' : α) (h : i < l.length) :
    (l.map f).getD i d = f (l.getD i d') := by
  induction l generalizing i with
  | nil => simp at h
  | cons b l ih =>
    cases i with
    | zero => rfl
    | succ i => simpa using ih i (by simpa using h)

theorem removeTabCurrent_of_lt (current : Int) (removed newCount : Nat)
    (h0 : ¬newCount = 0) (hgt : (removed : Int) < current) :
    removeTabCurrent current removed newCount = current - 1 := by
  simp only [removeTabCurrent]
  rw [if_neg h0, if_neg (by omega), if_pos hgt]

theorem moveTabCurrent_self (src dst : Nat) :
    moveTabCurrent (src : Int) src dst = (dst : Int) := by
  simp [moveTabCurrent]

/-! ## C2: reload failure is atomic -/

/-- C2: when re-reading the map from disk fails, reloadDocumentAt
returns failure after emitting an error message that contains both the
file name and the underlying cause, and the document list, the current
tab index, the view containers and the watch subscriptions are exactly
as before the call: the original document is kept. -/
theorem reload_failure_atomic (env : DmEnv) (dm : DocManager) (index : Nat)
    (hload : env.load (dm.documents.getD index default).fileName
        (dm.documents.getD index default).readerPluginFileName = none) :
    (reloadDocumentAt env dm index).2 = false ∧
    (reloadDocumentAt env dm index).1.documents = dm.documents ∧
    (reloadDocumentAt env dm index).1.currentIndex = dm.currentIndex ∧
    (reloadDocumentAt env dm index).1.containers = dm.containers ∧
    (reloadDocumentAt env dm index).1.watch = dm.watch ∧
    (reloadDocumentAt env dm index).1.messages =
      dm.messages ++ [(dm.documents.getD index default).fileName ++ ":\n\n" ++
        env.loadError (dm.documents.getD index default).fileName] ∧
    List.IsInfix (dm.documents.getD index default).fileName.data
      ((dm.documents.getD index default).fileName ++ ":\n\n" ++
        env.loadError (dm.documents.getD index default).fileName).data ∧
    List.IsInfix (env.loadError (dm.documents.getD index default).fileName).data
      ((dm.documents.getD index default).fileName ++ ":\n\n" ++
        env.loadError (dm.documents.getD index default).fileName).data := by
  simp only [reloadDocumentAt, hload, true_and]
  refine ⟨?_, ?_⟩
  · exact ⟨[], (":\n\n" ++ env.loadError (dm.documents.getD index default).fileName).data,
      by simp⟩
  · exact ⟨((dm.documents.getD index default).fileName ++ ":\n\n").data, [], by simp⟩

theorem reload_failure_atomic_witness :
    c2Env.load (c2Dm.documents.getD 0 default).fileName
        (c2Dm.documents.getD 0 default).readerPluginFileName = none ∧
    ((reloadDocumentAt c2Env c2Dm 0).2 = false ∧
      (reloadDocumentAt c2Env c2Dm 0).1.documents = c2Dm.documents ∧
      (reloadDocumentAt c2Env c2Dm 0).1.currentIndex = c2Dm.currentIndex ∧
      (reloadDocumentAt c2Env c2Dm 0).1.containers = c2Dm.containers ∧
      (reloadDocumentAt c2Env c2Dm 0).1.watch = c2Dm.watch ∧
      (reloadDocumentAt c2Env c2Dm 0).1.messages =
        c2Dm.messages ++ [(c2Dm.documents.getD 0 default).fileName ++ ":\n\n" ++
          c2Env.loadError (c2Dm.documents.getD 0 default).fileName] ∧
      List.IsInfix (c2Dm.documents.getD 0 default).fileName.data
        ((c2Dm.documents.getD 0 default).fileName ++ ":\n\n" ++
          c2Env.loadError (c2Dm.documents.getD 0 default).fileName).data ∧
      List.IsInfix (c2Env.loadError (c2Dm.documents.getD 0 default).fileName).data
        ((c2Dm.documents.getD 0 default).fileName ++ ":\n\n" ++
          c2Env.loadError (c2Dm.documents.getD 0 default).fileName).data) :=
  ⟨by decide, reload_failure_atomic c2Env c2Dm 0 (by decide)⟩

/-! ## C3: reload success preserves position, view state and layer -/

/-- Characterization of a successful reloadDocumentAt: the full
resulting document list, container list, current index and messages. -/
theorem reload_success_spec (env : DmEnv) (dm : DocManager) (index : Nat)
    (newDoc : MapDocument)
    (hindex : index < dm.documents.length)
    (hcont : dm.containers.length = dm.documents.length)
    (hload : env.load (dm.documents.getD index default).fileName
        (dm.documents.getD index default).readerPluginFileName = some newDoc) :
    (reloadDocumentAt env dm index).2 = true ∧
    (reloadDocumentAt env dm index).1.currentIndex = (index : Int) ∧
    (reloadDocumentAt env dm index).1.messages = dm.messages ∧
    (reloadDocumentAt env dm index).1.documents =
      (if 0 < (dm.documents.getD index default).currentLayerIndex ∧
          (dm.documents.getD index default).currentLayerIndex < (newDoc.layerCount : Int)
        then ((dm.documents.eraseIdx index).insertIdx index newDoc).map
          (fun d => if d.id = newDoc.id then
            { d with currentLayerIndex := (dm.documents.getD index default).currentLayerIndex }
            else d)
        else (dm.documents.eraseIdx index).insertIdx index newDoc) ∧
    (reloadDocumentAt env dm index).1.containers =
      modifyIdx ((dm.containers.eraseIdx index).insertIdx index
          { view := { scale := 1, hScroll := env.centerScroll.1,
                      vScroll := env.centerScroll.2 }
            warningVisible := false })
        index
        (fun c => { c with view :=
            { scale := (dm.containers.getD index default).view.scale
              hScroll := (dm.containers.getD index default).view.hScroll
              vScroll := (dm.containers.getD index default).view.vScroll } }) := by
  have hn : dm.documents.length ≠ 0 := by omega
  have hconti : index < dm.containers.length := by omega
  set cInit : MapViewContainer :=
    { view := { scale := 1, hScroll := env.centerScroll.1,
                vScroll := env.centerScroll.2 }
      warningVisible := false } with hcInit
  have h1d : (addDocument env dm newDoc).documents = dm.documents ++ [newDoc] := by
    simp [addDocument, switchToDocument, centerViewOn]
  have h1c : (addDocument env dm newDoc).containers = dm.containers ++ [cInit] := by
    simp only [addDocument, switchToDocument, centerViewOn]
    rw [if_neg (by omega)]
    simp only [List.length_append, List.length_cons, List.length_nil]
    have htn : ((dm.documents.length + 1 - 1 : Nat) : Int).toNat =
        dm.containers.length := by omega
    rw [htn, modifyIdx_concat_length]
    simp [hcInit, initContainer]
  have h1i : (addDocument env dm newDoc).currentIndex =
      (dm.documents.length : Int) := by
    simp [addDocument, switchToDocument, centerViewOn]
  have h1m : (addDocument env dm newDoc).messages = dm.messages := by
    simp only [addDocument, switchToDocument, centerViewOn]
    split <;> rfl
  have h2d : (closeDocumentAt (addDocument env dm newDoc) index).documents =
      dm.documents.eraseIdx index ++ [newDoc] := by
    simp only [closeDocumentAt]
    rw [h1d, eraseIdx_concat_of_lt _ _ _ hindex]
  have h2c : (closeDocumentAt (addDocument env dm newDoc) index).containers =
      dm.containers.eraseIdx index ++ [cInit] := by
    simp only [closeDocumentAt]
    rw [h1c, eraseIdx_concat_of_lt _ _ _ hconti]
  have h2len : (closeDocumentAt (addDocument env dm newDoc) index).documents.length =
      dm.documents.length := by
    rw [h2d]
    simp [length_eraseIdx_of_lt _ _ hindex]
    omega
  have h2i : (closeDocumentAt (addDocument env dm newDoc) index).currentIndex =
      (dm.documents.length : Int) - 1 := by
    simp only [closeDocumentAt]
    rw [h1i, h1d, eraseIdx_concat_of_lt _ _ _ hindex]
    rw [removeTabCurrent_of_lt]
    · simp [length_eraseIdx_of_lt _ _ hindex]
    · exact_mod_cast hindex
  have helen : (dm.documents.eraseIdx index).length = dm.documents.length - 1 :=
    length_eraseIdx_of_lt _ _ hindex
  have heclen : (dm.containers.eraseIdx index).length = dm.containers.length - 1 :=
    length_eraseIdx_of_lt _ _ hconti
  set dm3 := moveTab (closeDocumentAt (addDocument env dm newDoc) index)
    ((closeDocumentAt (addDocument env dm newDoc) index).documents.length - 1)
    index with hdm3
  have h3d : dm3.documents = (dm.documents.eraseIdx index).insertIdx index newDoc := by
    rw [hdm3]
    simp only [moveTab]
    rw [h2len, h2d]
    simp only [listMove]
    rw [show dm.documents.length - 1 = (dm.documents.eraseIdx index).length by omega]
    rw [getElem?_concat_length, eraseIdx_concat_length]
  have h3c : dm3.containers = (dm.containers.eraseIdx index).insertIdx index cInit := by
    rw [hdm3]
    simp only [moveTab]
    rw [h2len, h2c]
    simp only [listMove]
    rw [show dm.documents.length - 1 = (dm.containers.eraseIdx index).length by omega]
    rw [getElem?_concat_length, eraseIdx_concat_length]
  have h3i : dm3.currentIndex = (index : Int) := by
    rw [hdm3]
    simp only [moveTab]
    rw [h2len, h2i]
    rw [show ((dm.documents.length : Int) - 1) = ((dm.documents.length - 1 : Nat) : Int)
      by omega]
    exact moveTabCurrent_self _ _
  have h3m : dm3.messages = dm.messages := by
    rw [hdm3]
    exact h1m
  simp only [reloadDocumentAt, hload, ← hdm3]
  rw [h3i]
  rw [if_neg (show ¬((index : Int) = -1) by omega)]
  have htn2 : ((index : Int)).toNat = index := rfl
  rw [htn2]
  refine ⟨trivial, ?_, ?_, ?_, ?_⟩
  · by_cases hcond : 0 < (dm.documents.getD index default).currentLayerIndex ∧
        (dm.documents.getD index default).currentLayerIndex < (newDoc.layerCount : Int)
    · rw [if_pos hcond]
    · rw [if_neg hcond]
  · by_cases hcond : 0 < (dm.documents.getD index default).currentLayerIndex ∧
        (dm.documents.getD index default).currentLayerIndex < (newDoc.layerCount : Int)
    · rw [if_pos hcond]
      dsimp only
      exact h3m
    · rw [if_neg hcond]
      dsimp only
      exact h3m
  · by_cases hcond : 0 < (dm.documents.getD index default).currentLayerIndex ∧
        (dm.documents.getD index default).currentLayerIndex < (newDoc.layerCount : Int)
    · rw [if_pos hcond, if_pos hcond]
      dsimp only
      rw [h3d]
    · rw [if_neg hcond, if_neg hcond]
      dsimp only
      exact h3d
  · by_cases hcond : 0 < (dm.documents.getD index default).currentLayerIndex ∧
        (dm.documents.getD index default).currentLayerIndex < (newDoc.layerCount : Int)
    · rw [if_pos hcond]
      dsimp only
      rw [h3c]
    · rw [if_neg hcond]
      dsimp only
      rw [h3c]

/-- C3 (amended): when reloading the document at tab index `index`
succeeds, the new document sits at the same tab index (not appended at
the end), its view carries the zoom factor and both scroll positions of
the old view, and the old current-layer index is restored on the new
document exactly when it is strictly positive and below the layer count
of the new map (a current-layer index of 0 is not restored; the new
document keeps the current layer it was loaded with). -/
theorem reload_success_restores_view (env : DmEnv) (dm : DocManager) (index : Nat)
    (newDoc : MapDocument)
    (hindex : index < dm.documents.length)
    (hcont : dm.containers.length = dm.documents.length)
    (hload : env.load (dm.documents.getD index default).fileName
        (dm.documents.getD index default).readerPluginFileName = some newDoc) :
    (reloadDocumentAt env dm index).2 = true ∧
    (reloadDocumentAt env dm index).1.documents.length = dm.documents.length ∧
    (reloadDocumentAt env dm index).1.currentIndex = (index : Int) ∧
    (reloadDocumentAt env dm index).1.documents.getD index default =
      (if 0 < (dm.documents.getD index default).currentLayerIndex ∧
          (dm.documents.getD index default).currentLayerIndex < (newDoc.layerCount : Int)
        then { newDoc with
                currentLayerIndex := (dm.documents.getD index default).currentLayerIndex }
        else newDoc) ∧
    ((reloadDocumentAt env dm index).1.containers.getD index default).view =
      (dm.containers.getD index default).view ∧
    ((reloadDocumentAt env dm index).1.containers.getD index default).warningVisible =
      false := by
  obtain ⟨hok, hci, hmsg, hdocs, hconts⟩ :=
    reload_success_spec env dm index newDoc hindex hcont hload
  have helen : (dm.documents.eraseIdx index).length = dm.documents.length - 1 :=
    length_eraseIdx_of_lt _ _ hindex
  have heclen : (dm.containers.eraseIdx index).length = dm.containers.length - 1 :=
    length_eraseIdx_of_lt _ _ (by omega)
  refine ⟨hok, ?_, hci, ?_, ?_, ?_⟩
  · rw [hdocs]
    by_cases hcond : 0 < (dm.documents.getD index default).currentLayerIndex ∧
        (dm.documents.getD index default).currentLayerIndex < (newDoc.layerCount : Int)
    · rw [if_pos hcond]
      simp only [List.length_map]
      rw [List.length_insertIdx _ _ (by omega)]
      omega
    · rw [if_neg hcond]
      rw [List.length_insertIdx _ _ (by omega)]
      omega
  · rw [hdocs]
    by_cases hcond : 0 < (dm.documents.getD index default).currentLayerIndex ∧
        (dm.documents.getD index default).currentLayerIndex < (newDoc.layerCount : Int)
    · rw [if_pos hcond, if_pos hcond]
      rw [getD_map_of_lt _ _ index _ (dm.documents.getD index default)
        (by rw [List.length_insertIdx _ _ (by omega)]; omega)]
      rw [getD_insertIdx_self _ _ _ _ (by omega), if_pos rfl]
    · rw [if_neg hcond, if_neg hcond, getD_insertIdx_self _ _ _ _ (by omega)]
  · rw [hconts]
    rw [getD_modifyIdx_self _ _ _ _ default
      (by rw [List.length_insertIdx _ _ (by omega)]; omega)]
  · rw [hconts]
    rw [getD_modifyIdx_self _ _ _ _ default
      (by rw [List.length_insertIdx _ _ (by omega)]; omega)]
    rw [getD_insertIdx_self _ _ _ _ (by omega)]

theorem reload_success_restores_view_witness :
    (0 : Nat) < c3Dm.documents.length ∧
    c3Dm.containers.length = c3Dm.documents.length ∧
    c3Env.load (c3Dm.documents.getD 0 default).fileName
        (c3Dm.documents.getD 0 default).readerPluginFileName = some c3NewDoc ∧
    ((reloadDocumentAt c3Env c3Dm 0).2 = true ∧
      (reloadDocumentAt c3Env c3Dm 0).1.documents.length = c3Dm.documents.length ∧
      (reloadDocumentAt c3Env c3Dm 0).1.currentIndex = ((0 : Nat) : Int) ∧
      (reloadDocumentAt c3Env c3Dm 0).1.documents.getD 0 default =
        (if 0 < (c3Dm.documents.getD 0 default).currentLayerIndex ∧
            (c3Dm.documents.getD 0 default).currentLayerIndex <
              (c3NewDoc.layerCount : Int)
          then { c3NewDoc with
                  currentLayerIndex := (c3Dm.documents.getD 0 default).currentLayerIndex }
          else c3NewDoc) ∧
      ((reloadDocumentAt c3Env c3Dm 0).1.containers.getD 0 default).view =
        (c3Dm.containers.getD 0 default).view ∧
      ((reloadDocumentAt c3Env c3Dm 0).1.containers.getD 0 default).warningVisible =
        false) :=
  ⟨by decide, by decide, by decide,
    reload_success_restores_view c3Env c3Dm 0 c3NewDoc (by decide) (by decide)
      (by decide)⟩

/-- C3 counterexample: the claim says the old current-layer index is
restored whenever it is still a valid layer index in the new map.  Here
the old current layer is 0, which is a valid index in the new two-layer
map, the reload succeeds, and yet the document afterwards has current
layer 1 (the one the loaded document came with), because the code only
restores indices strictly greater than 0. -/
theorem reload_layer_zero_not_restored :
    (c3xDm.documents.getD 0 default).currentLayerIndex = 0 ∧
    ((reloadDocumentAt c3xEnv c3xDm 0).1.documents.getD 0 default).layerCount = 2 ∧
    (reloadDocumentAt c3xEnv c3xDm 0).2 = true ∧
    ((reloadDocumentAt c3xEnv c3xDm 0).1.documents.getD 0 default).currentLayerIndex
      ≠ (c3xDm.documents.getD 0 default).currentLayerIndex := by
  decide

end Tiled

namespace Tiled

/-! ## C1: file-change reconciliation -/

theorem findIdx?_some_lt_length {α : Type} (p : α → Bool) (l : List α) (i : Nat)
    (h : l.findIdx? p = some i) : i < l.length := by
  induction l generalizing i with
  | nil => simp at h
  | cons a l ih =>
    rw [List.findIdx?_cons] at h
    by_cases hp : p a
    · simp [hp] at h
      simp only [List.length_cons]
      omega
    · simp [hp] at h
      obtain ⟨j, hj, rfl⟩ := h
      have := ih j hj
      simp
      omega

theorem countP_eraseIdx_le {α : Type} (p : α → Bool) (l : List α) (i : Nat) :
    (l.eraseIdx i).countP p ≤ l.countP p := by
  induction l generalizing i with
  | nil => simp
  | cons a l ih =>
    cases i with
    | zero =>
      simp only [List.eraseIdx_cons_zero, List.countP_cons]
      omega
    | succ i =>
      simp only [List.eraseIdx_cons_succ, List.countP_cons]
      have := ih i
      omega

theorem countP_insertIdx_false {α : Type} (p : α → Bool) (l : List α) (a : α)
    (i : Nat) (ha : p a = false) :
    (l.insertIdx i a).countP p = l.countP p := by
  induction l generalizing i with
  | nil =>
    cases i with
    | zero => simp [ha]
    | succ i => simp
  | cons b l ih =>
    cases i with
    | zero => simp [List.countP_cons, ha]
    | succ i =>
      simp only [List.insertIdx_succ_cons, List.countP_cons]
      rw [ih i]

theorem countP_modifyIdx_of {α : Type} (p : α → Bool) (l : List α) (i : Nat)
    (f : α → α) (hf : ∀ c, p (f c) = p c) :
    (modifyIdx l i f).countP p = l.countP p := by
  induction l generalizing i with
  | nil => rfl
  | cons a l ih =>
    cases i with
    | zero => simp [modifyIdx, List.countP_cons, hf]
    | succ i =>
      simp only [modifyIdx, List.countP_cons]
      rw [ih i]

theorem warning_countP_modifyIdx_view (l : List MapViewContainer) (i : Nat)
    (v : MapViewState) :
    (modifyIdx l i fun c => { c with view := v }).countP
        (fun c => c.warningVisible) =
      l.countP (fun c => c.warningVisible) :=
  countP_modifyIdx_of _ _ _ _ (fun _ => rfl)

theorem warning_countP_insertIdx (l : List MapViewContainer) (i : Nat)
    (v : MapViewState) :
    (l.insertIdx i { view := v, warningVisible := false }).countP
        (fun c => c.warningVisible) =
      l.countP (fun c => c.warningVisible) :=
  countP_insertIdx_false _ _ _ _ rfl

/-- C1: a file-change notification with a path is handled in exactly
four ways.  When no open document resolves to the path it is a silent
no-op.  When the modification time equals the last-saved time of the
matched document it is ignored.  When the document has no unsaved edits
the reload path is invoked, with no reconciliation prompt (the number of
visible warnings never grows) and, when the read succeeds, no message
either.  Otherwise the file-changed warning is shown on the view of that
document and the documents, current index, watch set and messages are
untouched. -/
theorem fileChanged_reconciliation (env : DmEnv) (dm : DocManager) (p : String)
    (hcont : dm.containers.length = dm.documents.length) :
    (findDocument env dm p = none → fileChanged env dm p = dm) ∧
    (∀ i, findDocument env dm p = some i →
      (env.lastModified p = (dm.documents.getD i default).lastSaved →
        fileChanged env dm p = dm) ∧
      (env.lastModified p ≠ (dm.documents.getD i default).lastSaved →
        (dm.documents.getD i default).modified = false →
          fileChanged env dm p = (reloadDocumentAt env dm i).1 ∧
          warningCount (fileChanged env dm p) ≤ warningCount dm ∧
          (∀ newDoc, env.load (dm.documents.getD i default).fileName
              (dm.documents.getD i default).readerPluginFileName = some newDoc →
            (fileChanged env dm p).messages = dm.messages)) ∧
      (env.lastModified p ≠ (dm.documents.getD i default).lastSaved →
        (dm.documents.getD i default).modified = true →
          fileChanged env dm p =
            { dm with containers :=
                modifyIdx dm.containers i fun c =>
                  { c with warningVisible := true } } ∧
          (fileChanged env dm p).documents = dm.documents ∧
          (fileChanged env dm p).currentIndex = dm.currentIndex ∧
          (fileChanged env dm p).watch = dm.watch ∧
          (fileChanged env dm p).messages = dm.messages)) := by
  constructor
  · intro hfind
    simp [fileChanged, hfind]
  · intro i hfind
    have hlt : i < dm.documents.length := by
      unfold findDocument at hfind
      by_cases hc : env.canonical p = ""
      · rw [if_pos hc] at hfind
        exact absurd hfind (by simp)
      · rw [if_neg hc] at hfind
        exact findIdx?_some_lt_length _ _ _ hfind
    refine ⟨?_, ?_, ?_⟩
    · intro hmt
      simp [fileChanged, hfind, hmt]
    · intro hmt hmod
      have heq : fileChanged env dm p = (reloadDocumentAt env dm i).1 := by
        simp only [fileChanged, hfind]
        rw [if_neg hmt, if_pos (show (!(dm.documents.getD i default).modified) = true
          by rw [hmod]; rfl)]
      refine ⟨heq, ?_, ?_⟩
      · rw [heq]
        cases hl : env.load (dm.documents.getD i default).fileName
            (dm.documents.getD i default).readerPluginFileName with
        | none =>
          have : (reloadDocumentAt env dm i).1.containers = dm.containers := by
            simp only [reloadDocumentAt, hl]
          unfold warningCount
          rw [this]
        | some newDoc =>
          obtain ⟨-, -, -, -, hconts⟩ :=
            reload_success_spec env dm i newDoc hlt hcont hl
          unfold warningCount
          rw [hconts]
          rw [warning_countP_modifyIdx_view, warning_countP_insertIdx]
          exact countP_eraseIdx_le _ _ _
      · intro newDoc hl
        rw [heq]
        obtain ⟨-, -, hmsg, -, -⟩ :=
          reload_success_spec env dm i newDoc hlt hcont hl
        exact hmsg
    · intro hmt hmod
      have heq : fileChanged env dm p =
          { dm with containers :=
              modifyIdx dm.containers i fun c =>
                { c with warningVisible := true } } := by
        simp only [fileChanged, hfind]
        rw [if_neg hmt, if_neg (show ¬(!(dm.documents.getD i default).modified) = true
          by rw [hmod]; simp)]
      exact ⟨heq, by rw [heq], by rw [heq], by rw [heq], by rw [heq]⟩

theorem fileChanged_reconciliation_witness :
    c1Dm.containers.length = c1Dm.documents.length ∧
    findDocument c1Env c1Dm "a.tmx" = some 0 ∧
    c1Env.lastModified "a.tmx" ≠ (c1Dm.documents.getD 0 default).lastSaved ∧
    (c1Dm.documents.getD 0 default).modified = true ∧
    fileChanged c1Env c1Dm "a.tmx" =
      { c1Dm with containers :=
          modifyIdx c1Dm.containers 0 fun c =>
            { c with warningVisible := true } } :=
  ⟨by decide, by decide, by decide, by decide,
    ((((fileChanged_reconciliation c1Env c1Dm "a.tmx" (by decide)).2 0
      (by decide)).2.2) (by decide) (by decide)).1⟩

end Tiled

namespace Tiled

/-! ## C8: closing unsubscribes the watch unless the path is shared -/

theorem watchCount_of_not_mem (w : List (String × Nat)) (p : String)
    (h : p ∉ w.map Prod.fst) : watchCount w p = 0 := by
  induction w with
  | nil => rfl
  | cons e rest ih =>
    obtain ⟨q, n⟩ := e
    simp only [List.map_cons, List.mem_cons] at h
    push_neg at h
    simp only [watchCount]
    rw [if_neg (show ¬q = p from fun hq => h.1 hq.symm)]
    exact ih h.2

theorem getD_mem_of_lt {α : Type} (l : List α) (i : Nat) (d : α)
    (h : i < l.length) : l.getD i d ∈ l := by
  induction l generalizing i with
  | nil => simp at h
  | cons a l ih =>
    cases i with
    | zero => simp
    | succ i =>
      have hm := ih i (by simpa using h)
      simp only [List.getD_cons_succ, List.mem_cons]
      exact Or.inr hm

theorem watchCount_watchRemove (w : List (String × Nat)) (p : String)
    (hkeys : (w.map Prod.fst).Nodup) :
    watchCount (watchRemove w p) p = watchCount w p - 1 := by
  induction w with
  | nil => rfl
  | cons e rest ih =>
    obtain ⟨q, n⟩ := e
    simp only [List.map_cons, List.nodup_cons] at hkeys
    by_cases hq : q = p
    · subst hq
      have hrest : watchCount rest q = 0 := watchCount_of_not_mem rest q hkeys.1
      have hr : watchCount ((q, n) :: rest) q = n := by simp [watchCount]
      by_cases hn : n ≤ 1
      · have hl : watchRemove ((q, n) :: rest) q = rest := by
          simp [watchRemove, hn]
        rw [hl, hrest, hr]
        omega
      · have hl : watchRemove ((q, n) :: rest) q = (q, n - 1) :: rest := by
          simp [watchRemove, hn]
        have hr2 : watchCount ((q, n - 1) :: rest) q = n - 1 := by
          simp [watchCount]
        rw [hl, hr, hr2]
    · have hl : watchRemove ((q, n) :: rest) p = (q, n) :: watchRemove rest p := by
        simp [watchRemove, hq]
      have hr : ∀ rest2, watchCount ((q, n) :: rest2) p = watchCount rest2 p := by
        intro rest2
        simp [watchCount, hq]
      rw [hl, hr, hr]
      exact ih hkeys.2

theorem countP_eraseIdx_of {α : Type} (p : α → Bool) (l : List α) (i : Nat)
    (d : α) (h : i < l.length) (hp : p (l.getD i d) = true) :
    l.countP p = (l.eraseIdx i).countP p + 1 := by
  induction l generalizing i with
  | nil => simp at h
  | cons a l ih =>
    cases i with
    | zero =>
      simp only [List.getD_cons_zero] at hp
      simp [List.countP_cons, hp]
    | succ i =>
      have hi : i < l.length := by simpa using h
      simp only [List.getD_cons_succ] at hp
      simp only [List.eraseIdx_cons_succ, List.countP_cons]
      rw [ih i hi hp]
      omega

/-- C8: closing the document at a valid index removes it from the order
and destroys its view binding; its non-empty file path stays subscribed
to the file watch exactly when another still-open document resolves to
the same canonical file path, and is unsubscribed otherwise.  The
hypotheses record that open documents store canonical paths, that the
watcher holds one reference per open document with that path, and that
its keys are unique. -/
theorem close_unsubscribes_unless_shared (env : DmEnv) (dm : DocManager)
    (index : Nat)
    (hindex : index < dm.documents.length)
    (hfile : (dm.documents.getD index default).fileName ≠ "")
    (hkeys : (dm.watch.map Prod.fst).Nodup)
    (hcanon : ∀ d ∈ dm.documents, env.canonical d.fileName = d.fileName)
    (hcount : watchCount dm.watch (dm.documents.getD index default).fileName =
      dm.documents.countP
        (fun d => d.fileName == (dm.documents.getD index default).fileName)) :
    (closeDocumentAt dm index).documents = dm.documents.eraseIdx index ∧
    (closeDocumentAt dm index).containers = dm.containers.eraseIdx index ∧
    (0 < watchCount (closeDocumentAt dm index).watch
        (dm.documents.getD index default).fileName ↔
      ∃ d ∈ (closeDocumentAt dm index).documents,
        env.canonical d.fileName =
          env.canonical (dm.documents.getD index default).fileName) := by
  refine ⟨rfl, rfl, ?_⟩
  have hw : (closeDocumentAt dm index).watch =
      watchRemove dm.watch (dm.documents.getD index default).fileName := by
    simp only [closeDocumentAt]
    rw [if_pos hfile]
  have hd : (closeDocumentAt dm index).documents = dm.documents.eraseIdx index := rfl
  rw [hw, hd, watchCount_watchRemove _ _ hkeys, hcount]
  rw [countP_eraseIdx_of _ _ index default hindex (by simp)]
  simp only [Nat.add_sub_cancel]
  rw [List.countP_pos_iff]
  have hcp : env.canonical (dm.documents.getD index default).fileName =
      (dm.documents.getD index default).fileName :=
    hcanon _ (getD_mem_of_lt _ _ _ hindex)
  constructor
  · rintro ⟨d, hdmem, hdp⟩
    refine ⟨d, hdmem, ?_⟩
    rw [hcanon d ((List.eraseIdx_sublist dm.documents index).subset hdmem), hcp]
    simpa using hdp
  · rintro ⟨d, hdmem, hdp⟩
    refine ⟨d, hdmem, ?_⟩
    rw [hcanon d ((List.eraseIdx_sublist dm.documents index).subset hdmem), hcp] at hdp
    simpa using hdp

theorem close_unsubscribes_unless_shared_witness :
    (0 : Nat) < c8Dm.documents.length ∧
    (c8Dm.documents.getD 0 default).fileName ≠ "" ∧
    (c8Dm.watch.map Prod.fst).Nodup ∧
    (∀ d ∈ c8Dm.documents, c8Env.canonical d.fileName = d.fileName) ∧
    watchCount c8Dm.watch (c8Dm.documents.getD 0 default).fileName =
      c8Dm.documents.countP
        (fun d => d.fileName == (c8Dm.documents.getD 0 default).fileName) ∧
    ((closeDocumentAt c8Dm 0).documents = c8Dm.documents.eraseIdx 0 ∧
      (closeDocumentAt c8Dm 0).containers = c8Dm.containers.eraseIdx 0 ∧
      (0 < watchCount (closeDocumentAt c8Dm 0).watch
          (c8Dm.documents.getD 0 default).fileName ↔
        ∃ d ∈ (closeDocumentAt c8Dm 0).documents,
          c8Env.canonical d.fileName =
            c8Env.canonical (c8Dm.documents.getD 0 default).fileName)) :=
  ⟨by decide, by decide, by decide, by decide, by decide,
    close_unsubscribes_unless_shared c8Env c8Dm 0 (by decide) (by decide)
      (by decide) (by decide) (by decide)⟩

/-! ## C9: path uniqueness is not enforced by the registry -/

/-- C9 counterexample: starting from the empty registry, two distinct
documents with the same (canonical, non-empty) file path can both be
registered through addDocument, each registration satisfying the
pointer-identity precondition asserted by the code, and both end up
simultaneously open; the registry itself never checks path uniqueness. -/
theorem duplicate_path_registered :
    c9DocA ∉ c9Dm0.documents ∧
    c9DocB ∉ (addDocument c9Env c9Dm0 c9DocA).documents ∧
    (addDocument c9Env (addDocument c9Env c9Dm0 c9DocA) c9DocB).documents.length
      = 2 ∧
    (addDocument c9Env (addDocument c9Env c9Dm0 c9DocA) c9DocB).documents.getD
        0 default ≠
      (addDocument c9Env (addDocument c9Env c9Dm0 c9DocA) c9DocB).documents.getD
        1 default ∧
    ((addDocument c9Env (addDocument c9Env c9Dm0 c9DocA) c9DocB).documents.getD
        0 default).fileName ≠ "" ∧
    c9Env.canonical
        ((addDocument c9Env (addDocument c9Env c9Dm0 c9DocA) c9DocB).documents.getD
          0 default).fileName =
      c9Env.canonical
        ((addDocument c9Env (addDocument c9Env c9Dm0 c9DocA) c9DocB).documents.getD
          1 default).fileName := by
  decide

/-- C9 (amended): the registry itself enforces only object-identity
uniqueness: adding a document object that is not already registered
keeps the registered identities pairwise distinct, and closing preserves
that; canonical-path uniqueness is left to callers (who are expected to
consult findDocument before opening). -/
theorem registry_identity_uniqueness (env : DmEnv) (dm : DocManager)
    (doc : MapDocument) (index : Nat) :
    ((dm.documents.map MapDocument.id).Nodup →
      doc.id ∉ dm.documents.map MapDocument.id →
      ((addDocument env dm doc).documents.map MapDocument.id).Nodup) ∧
    ((dm.documents.map MapDocument.id).Nodup →
      ((closeDocumentAt dm index).documents.map MapDocument.id).Nodup) := by
  constructor
  · intro hnd hni
    have hadd : (addDocument env dm doc).documents = dm.documents ++ [doc] := by
      simp [addDocument, switchToDocument, centerViewOn]
    rw [hadd, List.map_append, List.nodup_append]
    refine ⟨hnd, by simp, ?_⟩
    intro a ha hb
    simp only [List.map_cons, List.map_nil, List.mem_singleton] at hb
    subst hb
    exact hni ha
  · intro hnd
    have hclose : (closeDocumentAt dm index).documents =
        dm.documents.eraseIdx index := rfl
    rw [hclose]
    exact hnd.sublist ((List.eraseIdx_sublist dm.documents index).map MapDocument.id)

theorem registry_identity_uniqueness_witness :
    ((c9Dm0.documents.map MapDocument.id).Nodup ∧
      c9DocA.id ∉ c9Dm0.documents.map MapDocument.id) ∧
    (((addDocument c9Env c9Dm0 c9DocA).documents.map MapDocument.id).Nodup →
      ((closeDocumentAt (addDocument c9Env c9Dm0 c9DocA) 0).documents.map
        MapDocument.id).Nodup) ∧
    ((c9Dm0.documents.map MapDocument.id).Nodup →
      c9DocA.id ∉ c9Dm0.documents.map MapDocument.id →
      ((addDocument c9Env c9Dm0 c9DocA).documents.map MapDocument.id).Nodup) :=
  ⟨⟨by decide, by decide⟩,
    (registry_identity_uniqueness c9Env (addDocument c9Env c9Dm0 c9DocA)
      c9DocA 0).2,
    (registry_identity_uniqueness c9Env c9Dm0 c9DocA 0).1⟩

end Tiled

namespace Tiled

/-! ## C7: reload of a non-active document and the active selection -/

/-- C7 counterexample: documents A and B are open, B is active, A has
no unsaved edits, and a change notification for the path of A arrives
with a fresh timestamp.  A is silently reloaded, but afterwards the
active document is the reloaded A (the reload path switches to the
newly added document), not B: the claim that B stays active is false on
the code. -/
theorem reload_changes_active_document :
    currentDocument c7Dm = some c7DocB ∧
    (c7Dm.documents.getD 0 default).modified = false ∧
    findDocument c7Env c7Dm "a.tmx" = some 0 ∧
    c7Env.lastModified "a.tmx" ≠ (c7Dm.documents.getD 0 default).lastSaved ∧
    (fileChanged c7Env c7Dm "a.tmx").currentIndex = 0 ∧
    ((fileChanged c7Env c7Dm "a.tmx").documents.getD 0 default).id = c7NewA.id ∧
    currentDocument (fileChanged c7Env c7Dm "a.tmx") ≠ some c7DocB := by
  decide

/-- C7 (amended): with documents A and B open, B active, and an
external change notification for the path of unmodified A whose
timestamp differs from the last save, A is silently reloaded in place:
afterwards document B is untouched (same record, same view container,
still open at tab index 1), the document at tab index 0 carries the
identity and file name of the newly loaded A, no warning prompt is
shown on it, and the active document is the reloaded A rather than
B. -/
theorem fileChanged_reload_two_documents (env : DmEnv) (A B newA : MapDocument)
    (ca cb : MapViewContainer) (w : List (String × Nat)) (ms : List String)
    (hA : env.canonical A.fileName ≠ "")
    (hmt : env.lastModified A.fileName ≠ A.lastSaved)
    (hmod : A.modified = false)
    (hload : env.load A.fileName A.readerPluginFileName = some newA)
    (hid : B.id ≠ newA.id) :
    let dm : DocManager :=
      { documents := [A, B], containers := [ca, cb], currentIndex := 1,
        watch := w, messages := ms }
    (fileChanged env dm A.fileName).documents.getD 1 default = B ∧
    (fileChanged env dm A.fileName).containers.getD 1 default = cb ∧
    (fileChanged env dm A.fileName).currentIndex = 0 ∧
    ((fileChanged env dm A.fileName).documents.getD 0 default).id = newA.id ∧
    ((fileChanged env dm A.fileName).documents.getD 0 default).fileName =
      newA.fileName ∧
    ((fileChanged env dm A.fileName).containers.getD 0 default).warningVisible =
      false ∧
    currentDocument (fileChanged env dm A.fileName) =
      some ((fileChanged env dm A.fileName).documents.getD 0 default) := by
  intro dm
  have hfind : findDocument env dm A.fileName = some 0 := by
    simp only [findDocument]
    rw [if_neg hA]
    rw [List.findIdx?_cons]
    simp
  have heq : fileChanged env dm A.fileName = (reloadDocumentAt env dm 0).1 := by
    simp only [fileChanged, hfind]
    rw [if_neg (show ¬env.lastModified A.fileName =
        (dm.documents.getD 0 default).lastSaved from hmt)]
    rw [if_pos (show (!(dm.documents.getD 0 default).modified) = true by
      rw [show (dm.documents.getD 0 default).modified = A.modified from rfl, hmod]
      rfl)]
  obtain ⟨hok, hci, hmsg, hdocs, hconts⟩ :=
    reload_success_spec env dm 0 newA (by simp [dm]) (by simp [dm])
      (show env.load (dm.documents.getD 0 default).fileName
          (dm.documents.getD 0 default).readerPluginFileName = some newA from hload)
  have hdocs2 : (reloadDocumentAt env dm 0).1.documents =
      (if 0 < A.currentLayerIndex ∧ A.currentLayerIndex < (newA.layerCount : Int)
        then [if newA.id = newA.id then
                { newA with currentLayerIndex := A.currentLayerIndex } else newA,
              if B.id = newA.id then
                { B with currentLayerIndex := A.currentLayerIndex } else B]
        else [newA, B]) := by
    rw [hdocs]
    rfl
  have hconts2 : (reloadDocumentAt env dm 0).1.containers =
      [{ view := ca.view, warningVisible := false }, cb] := by
    rw [hconts]
    rfl
  rw [heq, hdocs2, hconts2]
  refine ⟨?_, rfl, hci, ?_, ?_, rfl, ?_⟩
  · by_cases hcond : 0 < A.currentLayerIndex ∧
        A.currentLayerIndex < (newA.layerCount : Int)
    · rw [if_pos hcond]
      simp [if_neg hid]
    · rw [if_neg hcond]
      rfl
  · by_cases hcond : 0 < A.currentLayerIndex ∧
        A.currentLayerIndex < (newA.layerCount : Int)
    · rw [if_pos hcond]
      simp
    · rw [if_neg hcond]
      rfl
  · by_cases hcond : 0 < A.currentLayerIndex ∧
        A.currentLayerIndex < (newA.layerCount : Int)
    · rw [if_pos hcond]
      simp
    · rw [if_neg hcond]
      rfl
  · rw [← hdocs2, ← heq]
    simp only [currentDocument]
    rw [heq, hci]
    simp

theorem fileChanged_reload_two_documents_witness :
    c7Env.canonical c7DocA.fileName ≠ "" ∧
    c7Env.lastModified c7DocA.fileName ≠ c7DocA.lastSaved ∧
    c7DocA.modified = false ∧
    c7Env.load c7DocA.fileName c7DocA.readerPluginFileName = some c7NewA ∧
    c7DocB.id ≠ c7NewA.id ∧
    (let dm : DocManager :=
      { documents := [c7DocA, c7DocB],
        containers := [{ view := { scale := 2, hScroll := 30, vScroll := 40 },
                         warningVisible := false },
                       { view := { scale := 1, hScroll := 0, vScroll := 0 },
                         warningVisible := false }],
        currentIndex := 1, watch := [("a.tmx", 1), ("b.tmx", 1)], messages := [] }
    (fileChanged c7Env dm c7DocA.fileName).documents.getD 1 default = c7DocB ∧
    (fileChanged c7Env dm c7DocA.fileName).containers.getD 1 default =
      { view := { scale := 1, hScroll := 0, vScroll := 0 },
        warningVisible := false } ∧
    (fileChanged c7Env dm c7DocA.fileName).currentIndex = 0 ∧
    ((fileChanged c7Env dm c7DocA.fileName).documents.getD 0 default).id =
      c7NewA.id ∧
    ((fileChanged c7Env dm c7DocA.fileName).documents.getD 0 default).fileName =
      c7NewA.fileName ∧
    ((fileChanged c7Env dm c7DocA.fileName).containers.getD 0
        default).warningVisible = false ∧
    currentDocument (fileChanged c7Env dm c7DocA.fileName) =
      some ((fileChanged c7Env dm c7DocA.fileName).documents.getD 0 default)) :=
  ⟨by decide, by decide, by decide, by decide, by decide,
    fileChanged_reload_two_documents c7Env c7DocA c7DocB c7NewA
      { view := { scale := 2, hScroll := 30, vScroll := 40 },
        warningVisible := false }
      { view := { scale := 1, hScroll := 0, vScroll := 0 },
        warningVisible := false }
      [("a.tmx", 1), ("b.tmx", 1)] [] (by decide) (by decide) (by decide)
      (by decide) (by decide)⟩

end Tiled
